import Mathlib

/-!
# Verification of the VISA data-quality engine (src/backend_logic/dq_engine.py)

A shallow embedding of the scoring + explanation pipeline: tables are lists of
rows of cells, pandas scalar results that may be NaN are modelled by `PyFloat`,
and Python exceptions by `Except PyErr`.  Machine floats are idealised as
rationals; `round(x, 2)` is modelled by exact round-half-to-even at two
decimal places.
-/

/-- A value stored in one cell of a pandas DataFrame.  `null` covers
NaN/None/NaT, `str` a Python string, `num` a numeric value, `ts` a parsed
instant measured in whole seconds. -/
inductive Cell where
  | null
  | str (s : String)
  | num (q : ℚ)
  | ts (t : ℤ)
deriving DecidableEq

/-- Python exceptions that the engine can raise. -/
inductive PyErr where
  | keyError
  | zeroDivisionError
  | valueError
  | typeError
deriving DecidableEq

/-- A Python float idealised as a rational, together with NaN (numpy produces
NaN rather than raising on 0/0 scalar division, and pandas `Series.mean()` of
an empty series is NaN). -/
inductive PyFloat where
  | nan
  | val (q : ℚ)
deriving DecidableEq

/-- Round-half-to-even to the nearest integer, the tie rule of Python 3
`round`.  Away from ties it agrees with every standard rounding. -/
def roundHE (q : ℚ) : ℤ :=
  if q - ⌊q⌋ = 1 / 2 then (if Even ⌊q⌋ then ⌊q⌋ else ⌊q⌋ + 1) else round q

/-- Python `round(q, 2)` on the rational idealisation. -/
def round2 (q : ℚ) : ℚ := (roundHE (100 * q) : ℚ) / 100

/-- `round(·, 2)` lifted to possibly-NaN floats; `round(nan, 2)` is NaN. -/
def pyRound2 : PyFloat → PyFloat
  | .nan => .nan
  | .val q => .val (round2 q)

/-- Python `x >= b` where `x` may be NaN: every comparison with NaN is false. -/
def PyFloat.geQ : PyFloat → ℚ → Bool
  | .nan, _ => false
  | .val q, b => b ≤ q

/-- A pandas DataFrame: named columns and rows of cells (each row aligned
with `cols`). -/
structure Table where
  cols : List String
  rows : List (List Cell)
deriving DecidableEq

/-- `len(df)` / `df.shape[0]`. -/
def Table.numRows (t : Table) : ℕ := t.rows.length

/-- `df.shape[1]`. -/
def Table.numCols (t : Table) : ℕ := t.cols.length

/-- `df[c]`: the column named `c`, raising `KeyError` when absent. -/
def Table.column (t : Table) (c : String) : Except PyErr (List Cell) :=
  match t.cols.findIdx? (· == c) with
  | none => .error .keyError
  | some i => .ok (t.rows.map (fun r => r.getD i .null))

/-- `df[c] = vals`: in-place assignment of a column (the column is assumed to
exist, as it does at every assignment site in the source; otherwise pandas
would append it). -/
def Table.setCol (t : Table) (c : String) (vals : List Cell) : Table :=
  match t.cols.findIdx? (· == c) with
  | none => { cols := t.cols ++ [c], rows := (t.rows.zip vals).map (fun rv => rv.1 ++ [rv.2]) }
  | some i => { cols := t.cols, rows := (t.rows.zip vals).map (fun rv => rv.1.set i rv.2) }

/-- `series.mean()` of a boolean series holding `k` trues out of `n` entries:
NaN when the series is empty, else `k / n`; then `round(100 * (1 - mean), 2)`.
Every metric of the engine except Completeness and Uniqueness has exactly this
shape. -/
def fracScore (k n : ℕ) : PyFloat :=
  if n = 0 then .nan else .val (round2 (100 * (1 - (k : ℚ) / (n : ℚ))))

/-- `completeness_score(df)` (dq_engine.py lines 12-16):
`100 * (1 - missing_cells / total_cells)` rounded to 2 decimals.  The division
is a numpy scalar division, which yields NaN (not an exception) when
`total_cells = 0`. -/
def completeness_score (df : Table) : PyFloat :=
  let total_cells : ℕ := df.numRows * df.numCols
  let missing_cells : ℕ := (df.rows.map (fun r => r.countP (· == Cell.null))).sum
  if total_cells = 0 then .nan
  else .val (round2 (100 * (1 - (missing_cells : ℚ) / (total_cells : ℚ))))

/-- `series.nunique()`: the number of distinct non-null values (pandas drops
nulls by default). -/
def nunique (col : List Cell) : ℕ :=
  ((col.filter (fun c => !(c == Cell.null))).dedup).length

/-- `uniqueness_score` (dq_engine.py lines 19-21):
`round(df[id_column].nunique() / len(df) * 100, 2)`.

The source writes `def uniqueness_score(df):` but its body reads the otherwise
undefined name `id_column`, and both call sites (lines 23 and 149) pass it as a
second positional argument, `uniqueness_score(txn_df, "transaction_id")`; as
written every call raises `TypeError`.  The embedding takes `id_column` as a
parameter, matching the call sites' evident intent; the signature slip is
recorded separately by `uniqueness_score_paramCount`. -/
def uniqueness_score (df : Table) (id_column : String) : Except PyErr ℚ :=
  match df.column id_column with
  | .error e => .error e
  | .ok col =>
      if df.numRows = 0 then .error .zeroDivisionError
      else .ok (round2 ((nunique col : ℚ) / (df.numRows : ℚ) * 100))

/-- The number of formal parameters of `def uniqueness_score(df):` as written
at dq_engine.py line 19. -/
def uniqueness_score_paramCount : ℕ := 1

/-- The number of positional arguments in the pipeline's call
`uniqueness_score(txn_df, "transaction_id")` at dq_engine.py line 149 (and in
the module-level call at line 23). -/
def uniqueness_call_argCount : ℕ := 2

/-- `VALID_CURRENCIES = ["INR", "USD", "EUR"]` (line 25). -/
def VALID_CURRENCIES : List String := ["INR", "USD", "EUR"]

/-- `series.isin(list_of_strings)` for one cell: true exactly when the cell is
a string belonging to the list (a null cell is never a member). -/
def Cell.isinStr (c : Cell) (l : List String) : Bool :=
  match c with
  | .str s => l.contains s
  | _ => false

/-- `validity_score_currency(df)` (lines 27-30):
`invalid = ~df["currency_code"].isin(VALID_CURRENCIES)`;
`round(100 * (1 - invalid.mean()), 2)`. -/
def validity_score_currency (df : Table) : Except PyErr PyFloat := do
  let col ← df.column "currency_code"
  .ok (fracScore (col.countP (fun c => !(c.isinStr VALID_CURRENCIES))) col.length)

/-- The per-cell test `(x <= 0) | isnull(x)` of `accuracy_score_amount`; in
pandas a comparison of NaN with 0 is false, the `isnull` disjunct catches it. -/
def Cell.badAmount (c : Cell) : Bool :=
  match c with
  | .num q => q ≤ 0
  | .null => true
  | _ => false

/-- `accuracy_score_amount(df)` (lines 34-37):
`invalid_amounts = (df["transaction_amount"] <= 0) | (df["transaction_amount"].isnull())`;
`round(100 * (1 - invalid_amounts.mean()), 2)`. -/
def accuracy_score_amount (df : Table) : Except PyErr PyFloat := do
  let col ← df.column "transaction_amount"
  .ok (fracScore (col.countP Cell.badAmount) col.length)

/-- Days since 1970-01-01 of a proleptic-Gregorian civil date (the classic
days-from-civil algorithm, floor-based). -/
def days_from_civil (y m d : ℤ) : ℤ :=
  let y := y - (if m ≤ 2 then 1 else 0)
  let era := Int.fdiv y 400
  let yoe := y - era * 400
  let mp := Int.emod (m + 9) 12
  let doy := (153 * mp + 2) / 5 + d - 1
  let doe := yoe * 365 + yoe / 4 - yoe / 100 + doy
  era * 146097 + doe - 719468

/-- Split a character list at every dash, the shape of an ISO date. -/
def splitDash : List Char → List (List Char)
  | [] => [[]]
  | c :: t =>
      if c = '-' then [] :: splitDash t
      else
        match splitDash t with
        | [] => [[c]]
        | h :: r => (c :: h) :: r

/-- Read a non-empty all-digit chunk as a natural number. -/
def digitsVal : List Char → ℕ → Option ℕ
  | [], acc => some acc
  | c :: t, acc =>
      if c.isDigit then digitsVal t (acc * 10 + (c.toNat - 48)) else none

/-- A date component: a non-empty run of digits. -/
def chunkToNat? (l : List Char) : Option ℕ :=
  match l with
  | [] => none
  | _ => digitsVal l 0

/-- Modelled from the external library pandas: the slice of the
`pd.to_datetime` string parser the engine's data exercises, restricted to ISO
dates `YYYY-MM-DD`; any other string is unparseable and yields a parse error.
The result is the instant in seconds since the epoch. -/
def parseDate (s : String) : Option ℤ :=
  match (splitDash s.data).map chunkToNat? with
  | [some y, some m, some d] =>
      if 1 ≤ m ∧ m ≤ 12 ∧ 1 ≤ d ∧ d ≤ 31 then
        some (86400 * days_from_civil (y : ℤ) (m : ℤ) (d : ℤ))
      else none
  | _ => none

/-- `pd.to_datetime` on one cell with the default `errors="raise"`: a null
becomes NaT without raising, an already-parsed instant is returned unchanged,
a string is parsed or raises `ValueError`, and any other value raises. -/
def to_datetime (c : Cell) : Except PyErr Cell :=
  match c with
  | .null => .ok .null
  | .ts t => .ok (.ts t)
  | .str s =>
      match parseDate s with
      | some t => .ok (.ts t)
      | none => .error .valueError
  | .num _ => .error .valueError

/-- `delay.dt.days > max_delay_days` for one row.  `(settle - ts).dt.days` is
the whole-day component of the timedelta, i.e. floor division of the signed
difference in seconds by 86400; when either side is NaT the days value is NaN
and the comparison is false. -/
def rowIsLate (settle ts : Cell) (max_delay_days : ℤ) : Bool :=
  match settle, ts with
  | .ts s, .ts t => max_delay_days < Int.fdiv (s - t) 86400
  | _, _ => false

/-- Apply a fallible coercion to every element, failing on the first element
that fails (the behaviour of `pd.to_datetime` over a whole column with
`errors="raise"`). -/
def mapExcept (f : Cell → Except PyErr Cell) : List Cell → Except PyErr (List Cell)
  | [] => .ok []
  | a :: t => do
      let b ← f a
      let bs ← mapExcept f t
      .ok (b :: bs)

/-- `timeliness_score(df, max_delay_days=7)` (lines 40-48).  The two
`df[...] = pd.to_datetime(...)` statements assign the coerced columns in
place, mutating the caller's DataFrame; the embedding returns the mutated
table alongside the score.  `pd.to_datetime` raises on the first unparseable
value. -/
def timeliness_score (df : Table) (max_delay_days : ℤ) :
    Except PyErr (PyFloat × Table) := do
  let tsCol ← df.column "transaction_timestamp"
  let tsParsed ← mapExcept to_datetime tsCol
  let df := df.setCol "transaction_timestamp" tsParsed
  let sCol ← df.column "settlement_date"
  let sParsed ← mapExcept to_datetime sCol
  let df := df.setCol "settlement_date" sParsed
  let late := (sParsed.zip tsParsed).map (fun p => rowIsLate p.1 p.2 max_delay_days)
  .ok (fracScore (late.countP id) late.length, df)

/-- `consistency_score(df)` (lines 53-58):
`inconsistent = (df["currency_code"] == "INR") & (df["merchant_id"].isnull())`;
`round(100 * (1 - inconsistent.mean()), 2)`. -/
def consistency_score (df : Table) : Except PyErr PyFloat := do
  let cur ← df.column "currency_code"
  let mer ← df.column "merchant_id"
  let inconsistent := (cur.zip mer).map
    (fun p => p.1 == Cell.str "INR" && p.2 == Cell.null)
  .ok (fracScore (inconsistent.countP id) inconsistent.length)

/-- `integrity_score(txn_df, cust_df, merch_df)` (lines 61-67):
a row is invalid when its customer_id is not in the customer table's
customer_id column or its merchant_id is not in the merchant table's
merchant_id column. -/
def integrity_score (txn cust merch : Table) : Except PyErr PyFloat := do
  let custCol ← txn.column "customer_id"
  let merchCol ← txn.column "merchant_id"
  let custIds ← cust.column "customer_id"
  let merchIds ← merch.column "merchant_id"
  let invalid := (custCol.zip merchCol).map
    (fun p => !(custIds.contains p.1) || !(merchIds.contains p.2))
  .ok (fracScore (invalid.countP id) invalid.length)

/-- The severity bands computed at the top of `explain_dimension`
(lines 77-82): `score >= 90` is low, `score >= 75` is medium, otherwise high.
A NaN score fails both comparisons and lands in high. -/
def severityOf (score : PyFloat) : String :=
  if score.geQ 90 then "low" else if score.geQ 75 then "medium" else "high"

/-- The nested `explanations` dictionary of `explain_dimension`
(lines 84-120), transcribed verbatim. -/
def explanationTable : List (String × List (String × String)) :=
  [("Completeness",
    [("low", "Most required fields are populated, indicating strong data capture processes."),
     ("medium", "Some critical fields contain missing values, which may affect downstream processing."),
     ("high", "A significant number of required fields are missing, impacting reconciliation and compliance.")]),
   ("Accuracy",
    [("low", "Transaction values are largely accurate and within expected ranges."),
     ("medium", "Some transaction values appear unrealistic or invalid, affecting reporting reliability."),
     ("high", "Many transaction values are incorrect or invalid, posing financial and operational risks.")]),
   ("Validity",
    [("low", "Most fields conform to expected formats and domain rules."),
     ("medium", "Several fields violate format or domain constraints, reducing system reliability."),
     ("high", "Widespread format and domain violations prevent reliable data processing.")]),
   ("Uniqueness",
    [("low", "Records are mostly unique, minimizing duplication risks."),
     ("medium", "Some duplicate records were detected, which may lead to reconciliation errors."),
     ("high", "High duplication levels detected, risking double counting and reporting inaccuracies.")]),
   ("Timeliness",
    [("low", "Transactions are settled within acceptable timeframes."),
     ("medium", "Settlement delays are observed, impacting real-time visibility."),
     ("high", "Significant delays detected, reducing operational effectiveness and fraud detection capability.")]),
   ("Consistency",
    [("low", "Related fields show strong alignment across records."),
     ("medium", "Some inconsistencies exist between related fields, causing reporting mismatches."),
     ("high", "Frequent inconsistencies detected, reducing trust in analytical outputs.")]),
   ("Integrity",
    [("low", "Relationships across datasets are well maintained."),
     ("medium", "Some records reference missing or invalid entities."),
     ("high", "Broken relationships detected, impacting end-to-end data reliability.")])]

/-- `explain_dimension(dimension, score)` (lines 76-122): classify the score
into a severity band, then `explanations[dimension][severity]`; an
unrecognized dimension raises `KeyError` from the dictionary lookup. -/
def explain_dimension (dimension : String) (score : PyFloat) : Except PyErr String :=
  let severity := severityOf score
  match explanationTable.lookup dimension with
  | none => .error .keyError
  | some row =>
      match row.lookup severity with
      | none => .error .keyError
      | some text => .ok text

/-- The `recommendations` dictionary of `generate_recommendation`
(lines 128-136), transcribed verbatim. -/
def recommendationTable : List (String × String) :=
  [("Completeness", "Enforce mandatory field validation at data ingestion."),
   ("Accuracy", "Apply value range checks and validation rules at the source."),
   ("Validity", "Standardize formats and apply domain-level validations."),
   ("Uniqueness", "Implement unique constraints and deduplication logic."),
   ("Timeliness", "Optimize settlement workflows and monitor delays."),
   ("Consistency", "Introduce cross-field validation rules."),
   ("Integrity", "Enforce referential integrity across related datasets.")]

/-- `generate_recommendation(dimension, score)` (lines 124-138): when
`score >= 85` the fixed no-action sentence is returned before the dictionary
is ever consulted; otherwise `recommendations[dimension]`, raising `KeyError`
for an unrecognized dimension. -/
def generate_recommendation (dimension : String) (score : PyFloat) : Except PyErr String :=
  if score.geQ 85 then .ok "No immediate action required. Continue monitoring."
  else
    match recommendationTable.lookup dimension with
    | none => .error .keyError
    | some text => .ok text

/-- Python `sum` over a list of possibly-NaN floats: left fold from 0, NaN
absorbing. -/
def pySum (l : List PyFloat) : PyFloat :=
  l.foldl (fun a b =>
    match a, b with
    | .val x, .val y => .val (x + y)
    | _, _ => .nan) (.val 0)

/-- Division of a possibly-NaN float by a positive integer count. -/
def pyDivNat (a : PyFloat) (n : ℕ) : PyFloat :=
  match a with
  | .nan => .nan
  | .val q => .val (q / (n : ℚ))

/-- The `Quality Report` dictionary returned by `analyze_dataset`
(lines 167-172). -/
structure Report where
  overall_dqs : PyFloat
  scores : List (String × PyFloat)
  explanations : List (String × String)
  recommendations : List (String × String)
deriving DecidableEq

/-- The dictionary comprehensions of lines 155-163: resolve a text per
dimension from its score, failing as soon as one resolution fails. -/
def resolveAll (f : String → PyFloat → Except PyErr String) :
    List (String × PyFloat) → Except PyErr (List (String × String))
  | [] => .ok []
  | p :: ps => do
      let v ← f p.1 p.2
      let r ← resolveAll f ps
      .ok ((p.1, v) :: r)

/-- `analyze_dataset(txn_df, cust_df, merch_df)` (lines 144-172).  The seven
metrics run in the order of the `scores` dictionary literal;
`timeliness_score` mutates the transactions table in place (its two timestamp
columns), so the mutated table is threaded to Consistency and Integrity and
returned alongside the report to make the side effect on the caller's table
explicit.  Uniqueness is embedded with the call sites' two-argument intent
(see `uniqueness_score`). -/
def analyze_dataset (txn cust merch : Table) : Except PyErr (Report × Table) := do
  let c := completeness_score txn
  let a ← accuracy_score_amount txn
  let v ← validity_score_currency txn
  let u ← uniqueness_score txn "transaction_id"
  let tl ← timeliness_score txn 7
  let txn2 := tl.2
  let cs ← consistency_score txn2
  let ig ← integrity_score txn2 cust merch
  let scores : List (String × PyFloat) :=
    [("Completeness", c), ("Accuracy", a), ("Validity", v),
     ("Uniqueness", .val u), ("Timeliness", tl.1),
     ("Consistency", cs), ("Integrity", ig)]
  let explanations ← resolveAll explain_dimension scores
  let recommendations ← resolveAll generate_recommendation scores
  let overall_dqs := pyRound2 (pyDivNat (pySum (scores.map (fun p => p.2))) scores.length)
  .ok ({ overall_dqs := overall_dqs, scores := scores,
         explanations := explanations, recommendations := recommendations }, txn2)

/-- The column names of the transactions table (§3 of the design). -/
def txnCols : List String :=
  ["transaction_id", "customer_id", "merchant_id", "currency_code",
   "transaction_amount", "transaction_timestamp", "settlement_date"]

/-- The clean one-row scenario table of §8: id 1, customer C1, merchant M1,
INR, amount 100, transacted 2024-01-01 and settled 2024-01-03. -/
def sampleTxn : Table :=
  { cols := txnCols,
    rows := [[.num 1, .str "C1", .str "M1", .str "INR", .num 100,
              .str "2024-01-01", .str "2024-01-03"]] }

/-- The customer reference table holding exactly C1. -/
def sampleCust : Table := { cols := ["customer_id"], rows := [[.str "C1"]] }

/-- The merchant reference table holding exactly M1. -/
def sampleMerch : Table := { cols := ["merchant_id"], rows := [[.str "M1"]] }

/-- A transactions table with the full column set and zero rows. -/
def emptyTxn : Table := { cols := txnCols, rows := [] }

/-- A one-row transactions table whose transaction_timestamp is not parseable
as an instant. -/
def badTsTxn : Table :=
  { cols := txnCols,
    rows := [[.num 1, .str "C1", .str "M1", .str "INR", .num 100,
              .str "not-a-date", .str "2024-01-03"]] }

/-- `sampleTxn` as it stands after `timeliness_score` has coerced its two
timestamp columns in place (2024-01-01 and 2024-01-03 in epoch seconds). -/
def sampleTxnParsed : Table :=
  { cols := txnCols,
    rows := [[.num 1, .str "C1", .str "M1", .str "INR", .num 100,
              .ts 1704067200, .ts 1704240000]] }

/-- The §8 scenario row with its currency_code corrupted to GBP. -/
def gbpTxn : Table :=
  { cols := txnCols,
    rows := [[.num 1, .str "C1", .str "M1", .str "GBP", .num 100,
              .str "2024-01-01", .str "2024-01-03"]] }

/-- The seven recognized dimension names, in the order of the `scores`
dictionary of `analyze_dataset`. -/
def recognizedDimensions : List String :=
  ["Completeness", "Accuracy", "Validity", "Uniqueness", "Timeliness",
   "Consistency", "Integrity"]

/-- A minimal one-row table carrying only the two timestamp columns, with
already-typed instants: transacted at `tsv`, settled at `sv` (epoch
seconds). -/
def tsTable (tsv sv : ℤ) : Table :=
  { cols := ["transaction_timestamp", "settlement_date"],
    rows := [[.ts tsv, .ts sv]] }

/-- The full report `analyze_dataset` produces on the §8 scenario inputs. -/
def sampleReport : Report :=
  { overall_dqs := .val 100,
    scores := recognizedDimensions.map (fun d => (d, .val 100)),
    explanations := recognizedDimensions.map
      (fun d => (d, (((explanationTable.lookup d).getD []).lookup "low").getD "")),
    recommendations := recognizedDimensions.map
      (fun d => (d, "No immediate action required. Continue monitoring.")) }





/-! ## Helper lemmas about rounding -/

theorem roundHE_bounds (q : ℚ) :
    q - 1 / 2 ≤ (roundHE q : ℚ) ∧ (roundHE q : ℚ) ≤ q + 1 / 2 := by
  unfold roundHE
  split
  case isTrue h =>
    have hf : (⌊q⌋ : ℚ) = q - 1 / 2 := by linarith
    split <;> push_cast <;> rw [hf] <;> constructor <;> linarith
  case isFalse h =>
    have := abs_sub_round q
    rw [abs_le] at this
    constructor <;> linarith [this.1, this.2]

theorem roundHE_mono {x y : ℚ} (h : x ≤ y) : roundHE x ≤ roundHE y := by
  by_contra hc
  push_neg at hc
  have hI : (roundHE y : ℚ) + 1 ≤ (roundHE x : ℚ) := by
    exact_mod_cast Int.add_one_le_iff.mpr hc
  have hA := (roundHE_bounds x).2
  have hB := (roundHE_bounds y).1
  have hxy : x = y := le_antisymm h (by linarith)
  subst hxy
  exact absurd hc (lt_irrefl _)

theorem round2_mono {x y : ℚ} (h : x ≤ y) : round2 x ≤ round2 y := by
  unfold round2
  have h1 : roundHE (100 * x) ≤ roundHE (100 * y) := roundHE_mono (by linarith)
  have h2 : (roundHE (100 * x) : ℚ) ≤ (roundHE (100 * y) : ℚ) := by exact_mod_cast h1
  linarith

theorem roundHE_intCast (n : ℤ) : roundHE (n : ℚ) = n := by
  unfold roundHE
  rw [Int.floor_intCast, if_neg (by norm_num), round_intCast]

theorem round2_intCast (n : ℤ) : round2 (n : ℚ) = n := by
  unfold round2
  have : (100 : ℚ) * n = ((100 * n : ℤ) : ℚ) := by push_cast; ring
  rw [this, roundHE_intCast]
  push_cast
  ring

theorem round2_100 : round2 (100 : ℚ) = 100 := by
  have := round2_intCast 100
  norm_num at this
  exact this

theorem round2_0 : round2 (0 : ℚ) = 0 := by
  have := round2_intCast 0
  norm_num at this
  exact this

/-! ## Claim theorems -/

/-- Claim C1 (code_bug evidence).  The body of `uniqueness_score`, invoked on
the transaction_id column as the pipeline intends, returns
`100 x (distinct_count / row_count)` rounded to 2 decimal places — but the
source's signature `def uniqueness_score(df):` omits the `id_column`
parameter that both call sites pass, so the pipeline's actual call raises a
`TypeError` before this value can be produced. -/
theorem uniqueness_formula_and_arity_bug (df : Table) (col : List Cell)
    (h : df.column "transaction_id" = .ok col) (hn : df.numRows ≠ 0) :
    uniqueness_score df "transaction_id" =
      .ok (round2 (100 * ((nunique col : ℚ) / (df.numRows : ℚ)))) ∧
    uniqueness_score_paramCount ≠ uniqueness_call_argCount := by
  refine ⟨?_, by decide⟩
  unfold uniqueness_score
  rw [h]
  simp only [hn, if_false, Except.ok.injEq]
  rw [mul_comm]

/-- Witness for C1 at the §8 scenario table. -/
theorem uniqueness_formula_and_arity_bug_witness :
    uniqueness_score sampleTxn "transaction_id" =
      .ok (round2 (100 * ((nunique [Cell.num 1] : ℚ) / (sampleTxn.numRows : ℚ)))) ∧
    uniqueness_score_paramCount ≠ uniqueness_call_argCount :=
  uniqueness_formula_and_arity_bug sampleTxn [Cell.num 1] rfl (by decide)

/-- Claim C2 (code_bug evidence).  On the empty transactions table the code
does not raise any `DataShapeError` (no such error exists in dq_engine.py):
`completeness_score` silently returns NaN — numpy scalar division `0 / 0`
warns and yields NaN — and `uniqueness_score` raises a bare
`ZeroDivisionError` from the Python integer division `nunique / len(df)`. -/
theorem empty_table_nan_and_zero_division :
    completeness_score emptyTxn = PyFloat.nan ∧
    uniqueness_score emptyTxn "transaction_id" = .error .zeroDivisionError :=
  ⟨rfl, rfl⟩

/-- Claim C3 (code_bug evidence).  A row whose transaction_timestamp cannot be
parsed makes `timeliness_score` raise (the source calls `pd.to_datetime` with
the default `errors="raise"`); no score is returned and the row is never
counted in the late fraction. -/
theorem unparseable_timestamp_raises :
    timeliness_score badTsTxn 7 = .error .valueError := rfl

/-- Claim C7 (confirmed).  The severity classifier at the top of
`explain_dimension` maps a score of at least 90 to low, a score in [75, 90)
to medium, and a score below 75 to high. -/
theorem severity_bands (s : ℚ) :
    (90 ≤ s → severityOf (.val s) = "low") ∧
    (75 ≤ s → s < 90 → severityOf (.val s) = "medium") ∧
    (s < 75 → severityOf (.val s) = "high") := by
  refine ⟨fun h => ?_, fun h1 h2 => ?_, fun h => ?_⟩
  · simp [severityOf, PyFloat.geQ, h]
  · have h90 : ¬(90 ≤ s) := not_le.mpr h2
    simp [severityOf, PyFloat.geQ, h90, h1]
  · have h90 : ¬(90 ≤ s) := not_le.mpr (lt_trans h (by norm_num))
    have h75 : ¬(75 ≤ s) := not_le.mpr h
    simp [severityOf, PyFloat.geQ, h90, h75]

/-- Witness for C7 at score 92. -/
theorem severity_bands_witness : severityOf (.val 92) = "low" :=
  (severity_bands 92).1 (by norm_num)

/-- Keys absent from an association list never resolve. -/
theorem lookup_eq_none_of_not_mem_keys {β : Type} {d : String} {l : List (String × β)}
    (h : d ∉ l.map Prod.fst) : l.lookup d = none := by
  rw [List.lookup_eq_none_iff]
  intro p hp
  rw [bne_iff_ne]
  exact fun hdp => h (hdp ▸ List.mem_map_of_mem Prod.fst hp)

/-- Claim C6 (confirmed).  For a recognized dimension,
`generate_recommendation` returns the fixed no-action sentence whenever the
score is at least 85, regardless of dimension, and otherwise the single fixed
remediation sentence keyed by the dimension in `recommendationTable`. -/
theorem recommendation_resolution (d : String) (s : ℚ) (hd : d ∈ recognizedDimensions) :
    (85 ≤ s → generate_recommendation d (.val s) =
      .ok "No immediate action required. Continue monitoring.") ∧
    (s < 85 → ∃ r, recommendationTable.lookup d = some r ∧
      generate_recommendation d (.val s) = .ok r) := by
  constructor
  · intro h
    simp [generate_recommendation, PyFloat.geQ, h]
  · intro h
    have hif : (PyFloat.val s).geQ 85 = false := by
      simp [PyFloat.geQ, not_le.mpr h]
    have key : ∀ d' : String, generate_recommendation d' (.val s) =
        match recommendationTable.lookup d' with
        | none => .error .keyError
        | some t => .ok t := by
      intro d'
      unfold generate_recommendation
      rw [hif]
      simp
    simp only [recognizedDimensions, List.mem_cons, List.not_mem_nil, or_false] at hd
    rcases hd with rfl | rfl | rfl | rfl | rfl | rfl | rfl <;>
      exact ⟨_, rfl, key _⟩

/-- Witness for C6: Validity at score 90 gets the no-action sentence. -/
theorem recommendation_resolution_witness :
    generate_recommendation "Validity" (.val 90) =
      .ok "No immediate action required. Continue monitoring." :=
  (recommendation_resolution "Validity" 90 (by decide)).1 (by norm_num)

/-- Counterexample for C8: for the unrecognized dimension name "Amount" and
score 90, `generate_recommendation` does not fail at all — it silently
returns the default no-action sentence, because the score threshold is
checked before the dictionary is consulted. -/
theorem unknown_dimension_silently_defaults :
    generate_recommendation "Amount" (.val 90) =
      .ok "No immediate action required. Continue monitoring." := by
  norm_num [generate_recommendation, PyFloat.geQ]

/-- Amended C8.  For an unrecognized dimension name, `explain_dimension`
fails (with a `KeyError`; no `UnknownDimensionError` class exists in the
code) at every score, and `generate_recommendation` fails exactly when the
score is below 85; at 85 or above it returns the shared no-action sentence
without consulting the dimension. -/
theorem unknown_dimension_amended (d : String) (s : ℚ) (hd : d ∉ recognizedDimensions) :
    explain_dimension d (.val s) = .error .keyError ∧
    (s < 85 → generate_recommendation d (.val s) = .error .keyError) ∧
    (85 ≤ s → generate_recommendation d (.val s) =
      .ok "No immediate action required. Continue monitoring.") := by
  have hE : explanationTable.lookup d = none :=
    lookup_eq_none_of_not_mem_keys
      (show d ∉ explanationTable.map Prod.fst from
        (show explanationTable.map Prod.fst = recognizedDimensions from rfl) ▸ hd)
  have hR : recommendationTable.lookup d = none :=
    lookup_eq_none_of_not_mem_keys
      (show d ∉ recommendationTable.map Prod.fst from
        (show recommendationTable.map Prod.fst = recognizedDimensions from rfl) ▸ hd)
  refine ⟨?_, fun h => ?_, fun h => ?_⟩
  · simp [explain_dimension, hE]
  · have h85 : ¬(85 ≤ s) := not_le.mpr h
    simp [generate_recommendation, PyFloat.geQ, h85, hR]
  · simp [generate_recommendation, PyFloat.geQ, h]

/-- Witness for amended C8 at dimension "Amount", score 10. -/
theorem unknown_dimension_amended_witness :
    explain_dimension "Amount" (.val 10) = .error .keyError ∧
    generate_recommendation "Amount" (.val 10) = .error .keyError :=
  ⟨(unknown_dimension_amended "Amount" 10 (by decide)).1,
   (unknown_dimension_amended "Amount" 10 (by decide)).2.1 (by norm_num)⟩

/-- Reductions of `Except` bind, used to push hypotheses through the
do-blocks of the metric functions. -/
theorem except_bind_ok {α β : Type} (a : α) (f : α → Except PyErr β) :
    (Except.ok a >>= f) = f a := rfl

/-- Error propagation through `Except` bind. -/
theorem except_bind_error {α β : Type} (e : PyErr) (f : α → Except PyErr β) :
    ((Except.error e : Except PyErr α) >>= f) = .error e := rfl

/-- Replacing one element by one the predicate rejects cannot increase a
count. -/
theorem countP_set_le (p : Cell → Bool) (l : List Cell) (i : ℕ) (a : Cell)
    (ha : p a = false) : (l.set i a).countP p ≤ l.countP p := by
  induction l generalizing i with
  | nil => simp
  | cons x t ih =>
    cases i with
    | zero =>
      cases hpx : p x <;> simp [List.countP_cons, ha, hpx]
    | succ j =>
      simp only [List.set_cons_succ, List.countP_cons]
      have := ih j
      omega

/-- Claim C9 (confirmed).  Converting one row's currency_code from an invalid
value to a valid one, holding the row count fixed, never decreases the
Validity score. -/
theorem validity_monotone (t t' : Table) (cs : List Cell) (i : ℕ) (c : Cell)
    (q q' : ℚ)
    (h : t.column "currency_code" = .ok cs)
    (h' : t'.column "currency_code" = .ok (cs.set i c))
    (hi : i < cs.length)
    (hvalid : c.isinStr VALID_CURRENCIES = true)
    (hinvalid : (cs.getD i Cell.null).isinStr VALID_CURRENCIES = false)
    (hq : validity_score_currency t = .ok (.val q))
    (hq' : validity_score_currency t' = .ok (.val q')) :
    q ≤ q' := by
  have hn : cs.length ≠ 0 := by omega
  unfold validity_score_currency at hq hq'
  rw [h] at hq
  rw [h'] at hq'
  rw [except_bind_ok] at hq hq'
  rw [List.length_set] at hq'
  simp only [fracScore, hn, if_false, Except.ok.injEq, PyFloat.val.injEq] at hq hq'
  set p : Cell → Bool := fun x => !(x.isinStr VALID_CURRENCIES) with hp
  have hk : (cs.set i c).countP p ≤ cs.countP p :=
    countP_set_le p cs i c (by simp [hp, hvalid])
  have hden : (0 : ℚ) < (cs.length : ℚ) := by
    exact_mod_cast Nat.pos_of_ne_zero hn
  have hkk : (((cs.set i c).countP p : ℚ)) ≤ ((cs.countP p : ℚ)) := by
    exact_mod_cast hk
  have harg : 100 * (1 - (cs.countP p : ℚ) / (cs.length : ℚ)) ≤
      100 * (1 - ((cs.set i c).countP p : ℚ) / (cs.length : ℚ)) := by
    have hdiv : ((cs.set i c).countP p : ℚ) / (cs.length : ℚ) ≤
        (cs.countP p : ℚ) / (cs.length : ℚ) := by gcongr
    linarith
  rw [← hq, ← hq']
  exact round2_mono harg

/-- Witness for C9: fixing the GBP row of the one-row table to INR raises the
Validity score from 0 to 100. -/
theorem validity_monotone_witness :
    validity_score_currency gbpTxn = .ok (.val 0) ∧
    validity_score_currency sampleTxn = .ok (.val 100) ∧ (0 : ℚ) ≤ 100 := by
  have h0 : validity_score_currency gbpTxn =
      .ok (.val (round2 (100 * (1 - ((1 : ℕ) : ℚ) / ((1 : ℕ) : ℚ))))) := rfl
  have h100 : validity_score_currency sampleTxn =
      .ok (.val (round2 (100 * (1 - ((0 : ℕ) : ℚ) / ((1 : ℕ) : ℚ))))) := rfl
  have e0 : validity_score_currency gbpTxn = .ok (.val 0) := by
    rw [h0]
    norm_num [round2_0]
  have e100 : validity_score_currency sampleTxn = .ok (.val 100) := by
    rw [h100]
    norm_num [round2_100]
  exact ⟨e0, e100,
    validity_monotone gbpTxn sampleTxn [Cell.str "GBP"] 0 (Cell.str "INR") 0 100
      rfl rfl (by decide) (by decide) (by decide) e0 e100⟩

/-- Claim C10 (confirmed).  Lateness is decided on the whole-day (floor)
component of settlement minus transaction time: any row whose difference is
below 8 full days — negative differences included — is counted on-time, and a
one-row table of such a row scores 100. -/
theorem timeliness_day_component (tsv sv : ℤ) (h : sv - tsv < 8 * 86400) :
    rowIsLate (.ts sv) (.ts tsv) 7 = false ∧
    timeliness_score (tsTable tsv sv) 7 = .ok (.val 100, tsTable tsv sv) := by
  have hdiv : Int.fdiv (sv - tsv) 86400 < 8 := by
    rw [Int.fdiv_eq_ediv _ (by norm_num)]
    exact (Int.ediv_lt_iff_lt_mul (by norm_num)).mpr (by linarith)
  have h1 : rowIsLate (.ts sv) (.ts tsv) 7 = false := by
    simp only [rowIsLate]
    exact decide_eq_false (by omega)
  refine ⟨h1, ?_⟩
  have h2 : timeliness_score (tsTable tsv sv) 7 =
      .ok (fracScore ([rowIsLate (Cell.ts sv) (Cell.ts tsv) 7].countP id) 1,
           tsTable tsv sv) := rfl
  rw [h2, h1]
  have h3 : ([false].countP id) = 0 := rfl
  rw [h3]
  have h4 : fracScore 0 1 = .val (round2 (100 * (1 - ((0 : ℕ) : ℚ) / ((1 : ℕ) : ℚ)))) := rfl
  rw [h4]
  norm_num [round2_100]

/-- Witness for C10: settlement one full day before the transaction (negative
difference) is on-time. -/
theorem timeliness_day_component_witness :
    rowIsLate (.ts (-86400)) (.ts 0) 7 = false ∧
    timeliness_score (tsTable 0 (-86400)) 7 = .ok (.val 100, tsTable 0 (-86400)) :=
  timeliness_day_component 0 (-86400) (by decide)

/-! ## Evaluation of the pipeline on the §8 scenario inputs -/

theorem except_pure {α : Type} (a : α) : (pure a : Except PyErr α) = .ok a := rfl

theorem fracScore01 : fracScore 0 1 = .val 100 := by
  have h : fracScore 0 1 = .val (round2 (100 * (1 - ((0 : ℕ) : ℚ) / ((1 : ℕ) : ℚ)))) := rfl
  rw [h]
  norm_num [round2_100]

theorem completeness_sample : completeness_score sampleTxn = .val 100 := by
  have h : completeness_score sampleTxn =
      .val (round2 (100 * (1 - ((0 : ℕ) : ℚ) / ((7 : ℕ) : ℚ)))) := rfl
  rw [h]
  norm_num [round2_100]

theorem accuracy_sample : accuracy_score_amount sampleTxn = .ok (.val 100) := by
  have h : accuracy_score_amount sampleTxn = .ok (fracScore 0 1) := rfl
  rw [h, fracScore01]

theorem validity_sample : validity_score_currency sampleTxn = .ok (.val 100) := by
  have h : validity_score_currency sampleTxn = .ok (fracScore 0 1) := rfl
  rw [h, fracScore01]

theorem uniqueness_sample : uniqueness_score sampleTxn "transaction_id" = .ok 100 := by
  have h : uniqueness_score sampleTxn "transaction_id" =
      .ok (round2 (((1 : ℕ) : ℚ) / ((1 : ℕ) : ℚ) * 100)) := rfl
  rw [h]
  norm_num [round2_100]

theorem timeliness_sample : timeliness_score sampleTxn 7 = .ok (.val 100, sampleTxnParsed) := by
  have h : timeliness_score sampleTxn 7 =
      .ok (fracScore ([rowIsLate (.ts 1704240000) (.ts 1704067200) 7].countP id) 1,
           sampleTxnParsed) := rfl
  have hl : rowIsLate (.ts 1704240000) (.ts 1704067200) 7 = false := by decide
  have hc : ([false].countP id) = 0 := rfl
  rw [h, hl, hc, fracScore01]

theorem consistency_sample : consistency_score sampleTxnParsed = .ok (.val 100) := by
  have h : consistency_score sampleTxnParsed = .ok (fracScore 0 1) := rfl
  rw [h, fracScore01]

theorem integrity_sample :
    integrity_score sampleTxnParsed sampleCust sampleMerch = .ok (.val 100) := by
  have h : integrity_score sampleTxnParsed sampleCust sampleMerch = .ok (fracScore 0 1) := rfl
  rw [h, fracScore01]

theorem severity_at_100 : severityOf (.val 100) = "low" := by
  norm_num [severityOf, PyFloat.geQ]

theorem recommendation_at_100 (d : String) :
    generate_recommendation d (.val 100) =
      .ok "No immediate action required. Continue monitoring." := by
  have h : (PyFloat.val 100).geQ 85 = true := by norm_num [PyFloat.geQ]
  simp [generate_recommendation, h]

theorem explanations_sample :
    resolveAll explain_dimension
      [("Completeness", PyFloat.val 100), ("Accuracy", .val 100), ("Validity", .val 100),
       ("Uniqueness", .val 100), ("Timeliness", .val 100), ("Consistency", .val 100),
       ("Integrity", .val 100)] = .ok sampleReport.explanations := by
  simp [resolveAll, explain_dimension, severity_at_100, explanationTable, except_bind_ok,
    except_pure, List.lookup, sampleReport, recognizedDimensions]

theorem recommendations_sample :
    resolveAll generate_recommendation
      [("Completeness", PyFloat.val 100), ("Accuracy", .val 100), ("Validity", .val 100),
       ("Uniqueness", .val 100), ("Timeliness", .val 100), ("Consistency", .val 100),
       ("Integrity", .val 100)] = .ok sampleReport.recommendations := by
  simp [resolveAll, recommendation_at_100, except_bind_ok, except_pure, sampleReport,
    recognizedDimensions]

theorem analyze_sample_eval :
    analyze_dataset sampleTxn sampleCust sampleMerch = .ok (sampleReport, sampleTxnParsed) := by
  simp only [analyze_dataset, completeness_sample, accuracy_sample, validity_sample,
    uniqueness_sample, timeliness_sample, consistency_sample, integrity_sample,
    except_bind_ok, explanations_sample, recommendations_sample]
  norm_num [pySum, pyDivNat, pyRound2, round2_100, sampleReport, recognizedDimensions]

/-! ## Frame reasoning for the in-place mutation of `timeliness_score` -/

/-- A successful column read pins down the found index and shape. -/
theorem column_ok_elim {t : Table} {c : String} {col : List Cell}
    (h : t.column c = .ok col) :
    ∃ i, t.cols.findIdx? (· == c) = some i ∧
      col = t.rows.map (fun r => r.getD i .null) := by
  unfold Table.column at h
  cases hf : t.cols.findIdx? (· == c) with
  | none => rw [hf] at h; exact absurd h (by simp)
  | some i =>
      rw [hf] at h
      simp only [Except.ok.injEq] at h
      exact ⟨i, rfl, h.symm⟩

/-- `mapExcept` preserves the length on success. -/
theorem mapExcept_length {f : Cell → Except PyErr Cell} :
    ∀ {l out : List Cell}, mapExcept f l = .ok out → out.length = l.length := by
  intro l
  induction l with
  | nil =>
      intro out h
      simp only [mapExcept, Except.ok.injEq] at h
      simp [← h]
  | cons a t ih =>
      intro out h
      simp only [mapExcept] at h
      cases hfa : f a with
      | error e => rw [hfa, except_bind_error] at h; exact absurd h (by simp)
      | ok b =>
          rw [hfa, except_bind_ok] at h
          cases hmt : mapExcept f t with
          | error e => rw [hmt, except_bind_error] at h; exact absurd h (by simp)
          | ok bs =>
              rw [hmt, except_bind_ok] at h
              simp only [Except.ok.injEq] at h
              simp [← h, ih hmt]

/-- `setCol` on an existing column keeps the column names. -/
theorem setCol_cols {t : Table} {c : String} {i : ℕ} (vals : List Cell)
    (hf : t.cols.findIdx? (· == c) = some i) :
    (t.setCol c vals).cols = t.cols := by
  unfold Table.setCol
  rw [hf]

/-- `setCol` on an existing column keeps the row count when the replacement
column has full length. -/
theorem setCol_rows_length {t : Table} {c : String} {i : ℕ} {vals : List Cell}
    (hf : t.cols.findIdx? (· == c) = some i)
    (hlen : vals.length = t.rows.length) :
    (t.setCol c vals).rows.length = t.rows.length := by
  unfold Table.setCol
  rw [hf]
  simp [List.length_zip, hlen]

/-- Projecting an untouched index through a row-wise `set`. -/
theorem map_getD_zip_set (rows : List (List Cell)) (vals : List Cell) (i j : ℕ)
    (hij : j ≠ i) (hlen : vals.length = rows.length) :
    ((rows.zip vals).map (fun rv => rv.1.set i rv.2)).map (fun r => r.getD j Cell.null) =
      rows.map (fun r => r.getD j Cell.null) := by
  induction rows generalizing vals with
  | nil => simp
  | cons r rs ih =>
      cases vals with
      | nil => simp at hlen
      | cons v vs =>
          simp only [List.zip_cons_cons, List.map_cons, List.cons.injEq]
          constructor
          · simp [List.getD_eq_getElem?_getD, List.getElem?_set_ne (fun h => hij h.symm)]
          · exact ih vs (by simpa using hlen)

/-- Reading a different column is unaffected by `setCol`. -/
theorem setCol_column_ne {t : Table} {c c' : String} {i : ℕ} {vals : List Cell}
    (hf : t.cols.findIdx? (· == c) = some i)
    (hlen : vals.length = t.rows.length)
    (hne : c' ≠ c) :
    (t.setCol c vals).column c' = t.column c' := by
  unfold Table.setCol Table.column
  rw [hf]
  simp only
  cases hfj : t.cols.findIdx? (· == c') with
  | none => rfl
  | some j =>
      have hji : j ≠ i := by
        intro hji
        subst hji
        obtain ⟨hjlt, hcj, -⟩ := List.findIdx?_eq_some_iff_getElem.mp hfj
        obtain ⟨hilt, hci, -⟩ := List.findIdx?_eq_some_iff_getElem.mp hf
        rw [beq_iff_eq] at hcj hci
        exact hne (hcj ▸ hci ▸ rfl)
      show Except.ok (((t.rows.zip vals).map (fun rv => rv.1.set i rv.2)).map
          (fun r => r.getD j Cell.null)) =
        Except.ok (t.rows.map (fun r => r.getD j Cell.null))
      rw [map_getD_zip_set t.rows vals i j hji hlen]

/-- The in-place mutation of `timeliness_score` is confined to the
transaction_timestamp and settlement_date columns: every other column, and
the column-name list, is unchanged. -/
theorem timeliness_frame (df : Table) (s : PyFloat) (df' : Table) (c : String)
    (h : timeliness_score df 7 = .ok (s, df'))
    (h1 : c ≠ "transaction_timestamp") (h2 : c ≠ "settlement_date") :
    df'.cols = df.cols ∧ df'.column c = df.column c := by
  unfold timeliness_score at h
  cases hts : df.column "transaction_timestamp" with
  | error e => rw [hts, except_bind_error] at h; exact absurd h (by simp)
  | ok tsCol =>
  rw [hts, except_bind_ok] at h
  cases hm1 : mapExcept to_datetime tsCol with
  | error e => rw [hm1, except_bind_error] at h; exact absurd h (by simp)
  | ok tsParsed =>
  rw [hm1, except_bind_ok] at h
  simp only at h
  cases hsd : (df.setCol "transaction_timestamp" tsParsed).column "settlement_date" with
  | error e => rw [hsd, except_bind_error] at h; exact absurd h (by simp)
  | ok sCol =>
  rw [hsd, except_bind_ok] at h
  cases hm2 : mapExcept to_datetime sCol with
  | error e => rw [hm2, except_bind_error] at h; exact absurd h (by simp)
  | ok sParsed =>
  rw [hm2, except_bind_ok] at h
  simp only [Except.ok.injEq, Prod.mk.injEq] at h
  obtain ⟨-, hdf'⟩ := h
  obtain ⟨i1, hf1, hcol1⟩ := column_ok_elim hts
  have hlen1 : tsParsed.length = df.rows.length := by
    rw [mapExcept_length hm1, hcol1, List.length_map]
  obtain ⟨i2, hf2, hcol2⟩ := column_ok_elim hsd
  have hlen2 : sParsed.length = (df.setCol "transaction_timestamp" tsParsed).rows.length := by
    rw [mapExcept_length hm2, hcol2, List.length_map]
  have hcols1 : (df.setCol "transaction_timestamp" tsParsed).cols = df.cols :=
    setCol_cols tsParsed hf1
  have hcols2 : df'.cols = (df.setCol "transaction_timestamp" tsParsed).cols := by
    rw [← hdf']
    exact setCol_cols sParsed hf2
  refine ⟨by rw [hcols2, hcols1], ?_⟩
  have step2 : df'.column c = (df.setCol "transaction_timestamp" tsParsed).column c := by
    rw [← hdf']
    exact setCol_column_ne hf2 hlen2 h2
  have step1 : (df.setCol "transaction_timestamp" tsParsed).column c = df.column c :=
    setCol_column_ne hf1 hlen1 h1
  rw [step2, step1]

/-- Counterexample for C4: on the §8 scenario inputs, `analyze_dataset` hands
back a transactions table that differs from the one it was given — the two
timestamp columns now hold coerced instants instead of the original
strings. -/
theorem analyze_dataset_mutates :
    analyze_dataset sampleTxn sampleCust sampleMerch = .ok (sampleReport, sampleTxnParsed) ∧
    sampleTxnParsed ≠ sampleTxn := by
  refine ⟨analyze_sample_eval, ?_⟩
  intro heq
  simp [sampleTxnParsed, sampleTxn] at heq


/-- Claim C5 (confirmed).  Whenever `analyze_dataset` succeeds and all seven
dimension scores are real numbers, the report's overall_dqs is exactly the
unweighted arithmetic mean of the seven scores, rounded to 2 decimals. -/
theorem overall_dqs_is_rounded_mean (txn cust merch : Table) (r : Report) (t : Table)
    (q1 q2 q3 q4 q5 q6 q7 : ℚ)
    (h : analyze_dataset txn cust merch = .ok (r, t))
    (hs : r.scores.map Prod.snd =
      [.val q1, .val q2, .val q3, .val q4, .val q5, .val q6, .val q7]) :
    r.overall_dqs = .val (round2 ((q1 + q2 + q3 + q4 + q5 + q6 + q7) / 7)) := by
  unfold analyze_dataset at h
  cases ha : accuracy_score_amount txn with
  | error e => rw [ha, except_bind_error] at h; exact absurd h (by simp)
  | ok a =>
  rw [ha, except_bind_ok] at h
  cases hv : validity_score_currency txn with
  | error e => rw [hv, except_bind_error] at h; exact absurd h (by simp)
  | ok v =>
  rw [hv, except_bind_ok] at h
  cases hu : uniqueness_score txn "transaction_id" with
  | error e => rw [hu, except_bind_error] at h; exact absurd h (by simp)
  | ok u =>
  rw [hu, except_bind_ok] at h
  cases htl : timeliness_score txn 7 with
  | error e => rw [htl, except_bind_error] at h; exact absurd h (by simp)
  | ok tl =>
  rw [htl, except_bind_ok] at h
  simp only at h
  cases hcs : consistency_score tl.2 with
  | error e => rw [hcs, except_bind_error] at h; exact absurd h (by simp)
  | ok cs =>
  rw [hcs, except_bind_ok] at h
  cases hig : integrity_score tl.2 cust merch with
  | error e => rw [hig, except_bind_error] at h; exact absurd h (by simp)
  | ok ig =>
  rw [hig, except_bind_ok] at h
  cases hex : resolveAll explain_dimension
      [("Completeness", completeness_score txn), ("Accuracy", a), ("Validity", v),
       ("Uniqueness", .val u), ("Timeliness", tl.1), ("Consistency", cs),
       ("Integrity", ig)] with
  | error e => rw [hex, except_bind_error] at h; exact absurd h (by simp)
  | ok ex =>
  rw [hex, except_bind_ok] at h
  cases hrc : resolveAll generate_recommendation
      [("Completeness", completeness_score txn), ("Accuracy", a), ("Validity", v),
       ("Uniqueness", .val u), ("Timeliness", tl.1), ("Consistency", cs),
       ("Integrity", ig)] with
  | error e => rw [hrc, except_bind_error] at h; exact absurd h (by simp)
  | ok rc =>
  rw [hrc, except_bind_ok] at h
  simp only [Except.ok.injEq, Prod.mk.injEq] at h
  obtain ⟨hr, -⟩ := h
  subst hr
  simp only [List.map_cons, List.map_nil, List.cons.injEq, and_true] at hs
  obtain ⟨h1, h2, h3, h4, h5, h6, h7⟩ := hs
  show pyRound2 (pyDivNat (pySum ([("Completeness", completeness_score txn), ("Accuracy", a),
      ("Validity", v), ("Uniqueness", PyFloat.val u), ("Timeliness", tl.1),
      ("Consistency", cs), ("Integrity", ig)].map (fun p => p.2)))
      ([("Completeness", completeness_score txn), ("Accuracy", a), ("Validity", v),
        ("Uniqueness", PyFloat.val u), ("Timeliness", tl.1), ("Consistency", cs),
        ("Integrity", ig)].length)) = .val (round2 ((q1 + q2 + q3 + q4 + q5 + q6 + q7) / 7))
  simp only [List.map_cons, List.map_nil, List.length_cons, List.length_nil]
  rw [h1, h2, h3, h4, h5, h6, h7]
  simp only [pySum, List.foldl, pyDivNat, pyRound2, PyFloat.val.injEq]
  norm_num

/-- Witness for C5 on the §8 scenario: seven scores of 100 give an overall
DQS of round2(700/7). -/
theorem overall_dqs_is_rounded_mean_witness :
    sampleReport.overall_dqs =
      .val (round2 ((100 + 100 + 100 + 100 + 100 + 100 + 100) / 7)) :=
  overall_dqs_is_rounded_mean sampleTxn sampleCust sampleMerch sampleReport sampleTxnParsed
    100 100 100 100 100 100 100 analyze_sample_eval
    (by simp [sampleReport, recognizedDimensions])

/-- Amended claim C4.  `analyze_dataset` does mutate the transactions table
(see the counterexample `analyze_dataset_mutates`): `timeliness_score`
overwrites its transaction_timestamp and settlement_date columns in place
with their coerced instants.  The mutation is confined to those two columns:
every other column of the transactions table, and its column-name list, is
unchanged, and the customer and merchant tables are never written at all. -/
theorem analyze_dataset_frame (txn cust merch : Table) (r : Report) (t : Table)
    (c : String)
    (h : analyze_dataset txn cust merch = .ok (r, t))
    (h1 : c ≠ "transaction_timestamp") (h2 : c ≠ "settlement_date") :
    t.cols = txn.cols ∧ t.column c = txn.column c := by
  unfold analyze_dataset at h
  cases ha : accuracy_score_amount txn with
  | error e => rw [ha, except_bind_error] at h; exact absurd h (by simp)
  | ok a =>
  rw [ha, except_bind_ok] at h
  cases hv : validity_score_currency txn with
  | error e => rw [hv, except_bind_error] at h; exact absurd h (by simp)
  | ok v =>
  rw [hv, except_bind_ok] at h
  cases hu : uniqueness_score txn "transaction_id" with
  | error e => rw [hu, except_bind_error] at h; exact absurd h (by simp)
  | ok u =>
  rw [hu, except_bind_ok] at h
  cases htl : timeliness_score txn 7 with
  | error e => rw [htl, except_bind_error] at h; exact absurd h (by simp)
  | ok tl =>
  rw [htl, except_bind_ok] at h
  simp only at h
  cases hcs : consistency_score tl.2 with
  | error e => rw [hcs, except_bind_error] at h; exact absurd h (by simp)
  | ok cs =>
  rw [hcs, except_bind_ok] at h
  cases hig : integrity_score tl.2 cust merch with
  | error e => rw [hig, except_bind_error] at h; exact absurd h (by simp)
  | ok ig =>
  rw [hig, except_bind_ok] at h
  cases hex : resolveAll explain_dimension
      [("Completeness", completeness_score txn), ("Accuracy", a), ("Validity", v),
       ("Uniqueness", .val u), ("Timeliness", tl.1), ("Consistency", cs),
       ("Integrity", ig)] with
  | error e => rw [hex, except_bind_error] at h; exact absurd h (by simp)
  | ok ex =>
  rw [hex, except_bind_ok] at h
  cases hrc : resolveAll generate_recommendation
      [("Completeness", completeness_score txn), ("Accuracy", a), ("Validity", v),
       ("Uniqueness", .val u), ("Timeliness", tl.1), ("Consistency", cs),
       ("Integrity", ig)] with
  | error e => rw [hrc, except_bind_error] at h; exact absurd h (by simp)
  | ok rc =>
  rw [hrc, except_bind_ok] at h
  simp only [Except.ok.injEq, Prod.mk.injEq] at h
  obtain ⟨-, ht⟩ := h
  subst ht
  exact timeliness_frame txn tl.1 tl.2 c (by rw [← htl]) h1 h2

/-- Witness for the amended C4 on the §8 scenario: the currency_code column
and the column names survive the pipeline untouched. -/
theorem analyze_dataset_frame_witness :
    sampleTxnParsed.cols = sampleTxn.cols ∧
    sampleTxnParsed.column "currency_code" = sampleTxn.column "currency_code" :=
  analyze_dataset_frame sampleTxn sampleCust sampleMerch sampleReport sampleTxnParsed
    "currency_code" analyze_sample_eval (by decide) (by decide)
